import Mathlib

/-!
Verification development for the `mascotas` pet-food delivery backend.

The Python routers under `backend/routers/` are shallowly embedded as pure
Lean functions over an explicit database state.  Each endpoint becomes a
function returning `Except Err ...`: raising `HTTPException` in the source
corresponds to returning `.error e`; since SQLAlchemy sessions only persist
on `db.commit()` (and the framework rolls back on an exception), an error
result carries no modified state.

Conventions of the embedding:
- identifiers (BIGINT keys) are `Nat`; `keygen.generate_uint64_key()` is
  modelled by explicitly supplied fresh-key values / counters;
- `datetime.now()` is an explicitly supplied `Nat` timestamp;
- the integer column `confirmacion_entrega` keeps its 0/1 `Nat` values;
- the per-order world (one `pedido` row, its optional `control_entrega`
  row, the set of courier ids) is a record `DB`; the state machine and the
  delivery operations only ever touch one order.
-/

/-- The distinct `raise HTTPException(...)` sites of the embedded endpoints,
one constructor per site; interpolated values are carried as arguments. -/
inductive Err where
  | clienteNoEncontrado
  | pedidoNoEncontrado
  | repartidorNoEncontrado
  | mascotaNoEncontrada
  | sinRegistroEntrega
  | noAsignado
  | noAsignadoDevuelto
  | pedidoNoEnBD
  | estadoDesconocido (actual : String)
  | transicionInvalida (actual nuevo : String)
  | devolucionInvalida (estado : String)
  | faltaDireccion
  | faltaPlatos
  | totalInvalido
  | direccionInvalida
  | faltanCamposDieta
  | formatoJsonInvalido
  | internalError
deriving DecidableEq

/-- HTTP status code attached to each raise site in the source. An uncaught
Python exception (`internalError`) surfaces as a 500. -/
def errStatus : Err → Nat
  | .clienteNoEncontrado => 404
  | .pedidoNoEncontrado => 404
  | .repartidorNoEncontrado => 404
  | .mascotaNoEncontrada => 404
  | .sinRegistroEntrega => 404
  | .noAsignado => 404
  | .noAsignadoDevuelto => 404
  | .pedidoNoEnBD => 404
  | .estadoDesconocido _ => 400
  | .transicionInvalida _ _ => 400
  | .devolucionInvalida _ => 400
  | .faltaDireccion => 400
  | .faltaPlatos => 400
  | .totalInvalido => 400
  | .direccionInvalida => 400
  | .faltanCamposDieta => 400
  | .formatoJsonInvalido => 400
  | .internalError => 500

/-- The `detail` string of each raise site.  Where the source wraps an
interpolated value in single quotes inside the f-string, the quotes are
omitted here; the carried values themselves are kept exactly. -/
def errDetail : Err → String
  | .clienteNoEncontrado => "Cliente no encontrado."
  | .pedidoNoEncontrado => "Pedido no encontrado."
  | .repartidorNoEncontrado => "Repartidor no encontrado."
  | .mascotaNoEncontrada => "Mascota no encontrada o no pertenece al cliente."
  | .sinRegistroEntrega => "El pedido no tiene registro de entrega asignado."
  | .noAsignado => "El pedido no está asignado o no existe."
  | .noAsignadoDevuelto => "El pedido no está asignado o no existe en el control de entrega."
  | .pedidoNoEnBD => "Pedido no encontrado en la base de datos."
  | .estadoDesconocido actual => "Estado actual desconocido: " ++ actual
  | .transicionInvalida actual nuevo =>
      "No se puede cambiar de " ++ actual ++ " a " ++ nuevo ++ "."
  | .devolucionInvalida estado =>
      "No se puede marcar un pedido " ++ estado ++ " como devuelto."
  | .faltaDireccion => "Debe especificar una dirección de entrega."
  | .faltaPlatos => "Debe incluir al menos un plato en el pedido."
  | .totalInvalido => "El total del pedido debe ser mayor que 0."
  | .direccionInvalida => "La dirección no pertenece al cliente o no existe."
  | .faltanCamposDieta => "Debe proporcionar frecuencia_cantidad y objetivo_dieta."
  | .formatoJsonInvalido => "Formato JSON inválido en uno de los campos de lista."
  | .internalError => "Internal Server Error"

/-- Row of table `pedido` (`models.Pedido`), the columns the embedded
endpoints read or write. -/
structure Pedido where
  id : Nat
  cliente_id : Nat
  direccion_id : Option Nat
  fecha : Nat
  total : Int
  estado : String
  incluye_plato : Bool
deriving DecidableEq

/-- Row of table `control_entrega` (`models.ControlEntrega`). -/
structure ControlEntrega where
  id : Nat
  pedido_id : Nat
  fecha_entrega : Nat
  confirmacion_entrega : Nat
  repartidor_id : Nat
deriving DecidableEq

/-- Database state restricted to one order: its `pedido` row (if the id
resolves), its at-most-one `control_entrega` row, and the existing courier
ids (`repartidor` table). -/
structure DB where
  pedido : Option Pedido
  control : Option ControlEntrega
  repartidores : List Nat
deriving DecidableEq

/-- The dict `transiciones_validas` of `actualizar_estado_pedido`
(`routers/admin/pedidos.py`), embedded as lookup: `none` models a key
miss (`estado_actual not in transiciones_validas`). -/
def transiciones_validas (s : String) : Option (List String) :=
  if s = "pendiente" then some ["en_preparacion", "cancelado"]
  else if s = "en_preparacion" then some ["asignado", "cancelado"]
  else if s = "asignado" then some ["en_camino", "cancelado"]
  else if s = "en_camino" then some ["entregado", "devuelto"]
  else if s = "devuelto" then some ["asignado", "cancelado"]
  else if s = "entregado" then some []
  else if s = "cancelado" then some []
  else none

/-- `PUT /admin/pedidos/{id}/estado` (`actualizar_estado_pedido`). -/
def actualizar_estado_pedido (nuevo_estado : String) (db : DB) : Except Err DB :=
  match db.pedido with
  | none => .error .pedidoNoEncontrado
  | some pedido =>
    match transiciones_validas pedido.estado with
    | none => .error (.estadoDesconocido pedido.estado)
    | some permitidos =>
      if nuevo_estado ∈ permitidos then
        .ok { db with pedido := some { pedido with estado := nuevo_estado } }
      else
        .error (.transicionInvalida pedido.estado nuevo_estado)

/-- `PUT /admin/pedidos/{id}/asignar/{repartidor_id}`
(`asignar_pedido_a_repartidor`).  `fresh_id` stands for the
`keygen.generate_uint64_key()` result used when a new `control_entrega`
row is created; `now` for `datetime.now()`. -/
def asignar_pedido_a_repartidor (repartidor_id fresh_id now : Nat) (db : DB) :
    Except Err DB :=
  match db.pedido with
  | none => .error .pedidoNoEncontrado
  | some pedido =>
    if repartidor_id ∈ db.repartidores then
      let control' : ControlEntrega :=
        match db.control with
        | some control =>
          { control with
            repartidor_id := repartidor_id
            fecha_entrega := now
            confirmacion_entrega := 0 }
        | none =>
          { id := fresh_id
            pedido_id := pedido.id
            fecha_entrega := now
            confirmacion_entrega := 0
            repartidor_id := repartidor_id }
      let pedido' :=
        if pedido.estado ∈ ["asignado", "en_camino", "entregado"] then pedido
        else { pedido with estado := "asignado" }
      .ok { db with pedido := some pedido', control := some control' }
    else .error .repartidorNoEncontrado

/-- `POST /cliente/pedido/{id}/recibido` (`marcar_pedido_recibido`).
Returns the updated state together with the `mensaje` of the response. -/
def marcar_pedido_recibido (now : Nat) (db : DB) : Except Err (DB × String) :=
  match db.pedido with
  | none => .error .pedidoNoEncontrado
  | some pedido =>
    match db.control with
    | none => .error .sinRegistroEntrega
    | some control =>
      if pedido.estado = "entregado" ∧ control.confirmacion_entrega = 1 then
        .ok (db, "El pedido ya fue confirmado como recibido.")
      else
        .ok ({ db with
                pedido := some { pedido with estado := "entregado" }
                control := some { control with
                                  confirmacion_entrega := 1
                                  fecha_entrega := now } },
             "El pedido ha sido confirmado como recibido.")

/-- `PUT /repartidor/pedidos/{id}/entregado` (`marcar_pedido_completado`).
Unlike the client route, this one looks up `control_entrega` first. -/
def marcar_pedido_completado (now : Nat) (db : DB) : Except Err (DB × String) :=
  match db.control with
  | none => .error .noAsignado
  | some control =>
    match db.pedido with
    | none => .error .pedidoNoEnBD
    | some pedido =>
      if pedido.estado = "entregado" ∧ control.confirmacion_entrega = 1 then
        .ok (db, "El pedido ya fue marcado como entregado anteriormente.")
      else
        .ok ({ db with
                pedido := some { pedido with estado := "entregado" }
                control := some { control with
                                  confirmacion_entrega := 1
                                  fecha_entrega := now } },
             "El pedido ha sido marcado como entregado correctamente.")

/-- `PUT /repartidor/pedidos/{id}/devuelto` (`marcar_pedido_devuelto`). -/
def marcar_pedido_devuelto (now : Nat) (db : DB) : Except Err DB :=
  match db.control with
  | none => .error .noAsignadoDevuelto
  | some control =>
    match db.pedido with
    | none => .error .pedidoNoEnBD
    | some pedido =>
      if pedido.estado ∈ ["entregado", "cancelado"] then
        .error (.devolucionInvalida pedido.estado)
      else
        .ok { db with
              pedido := some { pedido with estado := "devuelto" }
              control := some { control with
                                confirmacion_entrega := 0
                                fecha_entrega := now } }

/-- The status-mutating operations of the core, as one step alphabet. -/
inductive Op where
  | transition (nuevo : String)
  | assign (repartidor_id fresh_id now : Nat)
  | confirmCliente (now : Nat)
  | confirmRepartidor (now : Nat)
  | markReturned (now : Nat)
deriving DecidableEq

/-- Dispatch one operation. -/
def applyOp : Op → DB → Except Err DB
  | .transition nuevo, db => actualizar_estado_pedido nuevo db
  | .assign r f n, db => asignar_pedido_a_repartidor r f n db
  | .confirmCliente n, db => Except.map Prod.fst (marcar_pedido_recibido n db)
  | .confirmRepartidor n, db => Except.map Prod.fst (marcar_pedido_completado n db)
  | .markReturned n, db => marcar_pedido_devuelto n db

/-- Run one operation against the store: an `HTTPException` means the
session is not committed, so the state is unchanged. -/
def runOp (op : Op) (db : DB) : DB :=
  match applyOp op db with
  | .ok db' => db'
  | .error _ => db

/-- Run a sequence of operations. -/
def runOps (ops : List Op) (db : DB) : DB :=
  ops.foldl (fun d o => runOp o d) db

/-- Invariant of the Delivery Control record: `confirmacion_entrega = 1`
implies the owning order exists and its `estado` is `"entregado"`. -/
def deliveryInv (db : DB) : Bool :=
  match db.control with
  | none => true
  | some control =>
    decide (control.confirmacion_entrega ≠ 1) ||
      (match db.pedido with
       | some pedido => decide (pedido.estado = "entregado")
       | none => false)

/-- One entry of the `platos` list of a `crear_pedido` request body. -/
structure PlatoItem where
  plato_id : Nat
  cantidad : Int
deriving DecidableEq

/-- Row of table `detalle_pedido` (`models.DetallePedido`). -/
structure DetallePedido where
  id : Nat
  pedido_id : Nat
  plato_id : Nat
  cantidad : Int
  subtotal : Int
deriving DecidableEq

/-- Database state for `crear_pedido`: existing customer ids, address rows
as (id, owning customer id), the dish catalog as (id, price), and the
`pedido` / `detalle_pedido` rows persisted so far. -/
structure DBPedidos where
  clientes : List Nat
  direcciones : List (Nat × Nat)
  platos : List (Nat × Int)
  pedidos : List Pedido
  detalles : List DetallePedido
deriving DecidableEq

/-- `db.query(Plato).get(plato_id).precio`: `none` models the `.precio`
attribute access blowing up because the dish id does not resolve. -/
def precioDe (catalogo : List (Nat × Int)) (plato_id : Nat) : Option Int :=
  Option.map Prod.snd (catalogo.find? (fun p => p.1 = plato_id))

/-- The `for item in platos` loop of `crear_pedido`: one `detalle_pedido`
row per item, ids drawn from the counter `k`, subtotal = quantity × unit
price looked up live in the catalog. -/
def mkDetalles (pedido_id : Nat) (catalogo : List (Nat × Int)) :
    List PlatoItem → Nat → Option (List DetallePedido)
  | [], _ => some []
  | item :: rest, k =>
    match precioDe catalogo item.plato_id with
    | none => none
    | some precio =>
      Option.map
        (fun ds =>
          { id := k
            pedido_id := pedido_id
            plato_id := item.plato_id
            cantidad := item.cantidad
            subtotal := item.cantidad * precio } :: ds)
        (mkDetalles pedido_id catalogo rest (k + 1))

/-- `POST /cliente/pedido/{cliente_id}` (`crear_pedido`).  The request body
fields `direccion_id` and `total` are `Option`s (`data.get` misses model as
`none`); validations run in source order, all before any row is built. -/
def crear_pedido (cliente_id : Nat) (direccion_id : Option Nat)
    (platos : List PlatoItem) (total : Option Int) (k now : Nat)
    (db : DBPedidos) : Except Err DBPedidos :=
  if cliente_id ∈ db.clientes then
    match direccion_id with
    | none => .error .faltaDireccion
    | some dir_id =>
      if platos.isEmpty then .error .faltaPlatos
      else
        match total with
        | none => .error .totalInvalido
        | some t =>
          if t ≤ 0 then .error .totalInvalido
          else if (dir_id, cliente_id) ∈ db.direcciones then
            let pedido : Pedido :=
              { id := k
                cliente_id := cliente_id
                direccion_id := some dir_id
                fecha := now
                total := t
                estado := "pendiente"
                incluye_plato := true }
            match mkDetalles k db.platos platos (k + 1) with
            | none => .error .internalError
            | some dets =>
              .ok { db with
                    pedidos := db.pedidos ++ [pedido]
                    detalles := db.detalles ++ dets }
          else .error .direccionInvalida
  else .error .clienteNoEncontrado

/-- Values produced by `json.loads` (the repository only ever feeds it
integers, strings, booleans, nulls, arrays and objects). -/
inductive JVal where
  | jnull
  | jbool (b : Bool)
  | jnum (n : Int)
  | jstr (s : String)
  | jarr (xs : List JVal)
  | jobj (fields : List (String × JVal))

/-- Python truthiness of a decoded JSON value (`if not x`). -/
def jtruthy : JVal → Bool
  | .jnull => false
  | .jbool b => b
  | .jnum n => decide (n ≠ 0)
  | .jstr s => !s.isEmpty
  | .jarr xs => !xs.isEmpty
  | .jobj fs => !fs.isEmpty

/-- Python `str()` of a decoded JSON value.  Composite values are rendered
abbreviated: as in Python, their rendering is never the empty string, which
is all the embedded code observes about it. -/
def pyStr : JVal → String
  | .jnull => "None"
  | .jbool b => if b then "True" else "False"
  | .jnum n => toString n
  | .jstr s => s
  | .jarr _ => "[...]"
  | .jobj _ => "\x7b...\x7d"

/-- Python `int()` of a decoded JSON value: `none` models the
`TypeError`/`ValueError` an unconvertible value raises. -/
def pyInt : JVal → Option Int
  | .jnum n => some n
  | .jbool b => some (if b then 1 else 0)
  | .jstr s => s.toInt?
  | _ => none

/-- `cond.get(key)` on a decoded JSON object: a JSON `null` value and an
absent key both come back as Python `None`; with duplicate keys
`json.loads` keeps the last occurrence. -/
def getPy (fields : List (String × JVal)) (key : String) : Option JVal :=
  match Option.map Prod.snd (fields.reverse.find? (fun p => p.1 = key)) with
  | some .jnull => none
  | o => o

/-- The nested helper `parse_json_list` of `crear_pedido_especializado`.
A raw form field is modelled by its decode outcome: `none` = field absent
(or empty, both falsy), `some none` = `json.loads` raised, `some (some v)`
= decoded to `v`; a decoded non-list is wrapped in a singleton. -/
def parse_json_list (value : Option (Option JVal)) : Except Err (List JVal) :=
  match value with
  | none => .ok []
  | some none => .error .formatoJsonInvalido
  | some (some (.jarr xs)) => .ok xs
  | some (some v) => .ok [v]

/-- A resolved datetime column value: either `datetime.fromisoformat`
succeeded on the given text, or `datetime.now()` was used. -/
inductive Fecha where
  | parsed (s : String)
  | ahora (t : Nat)

/-- Row of table `pedido_especializado` (`models.PedidoEspecializado`). -/
structure PedidoEspecializado where
  id : Nat
  pedido_id : Nat
  registro_mascota_id : Nat
  frecuencia_cantidad : String
  objetivo_dieta : String
  indicaciones_adicionales : Option String
  consulta_nutricionista : Nat
  estado_registro : String
  archivo_adicional : Option String

/-- Row of table `alergia_mascota` (`models.AlergiaMascota`). -/
structure AlergiaMascota where
  id : Nat
  registro_mascota_id : Nat
  alergia_especie_id : Int
  severidad : String
  estado_registro : String
deriving DecidableEq

/-- Row of table `descripcion_alergias` (`models.DescripcionAlergias`). -/
structure DescripcionAlergias where
  id : Nat
  registro_mascota_id : Nat
  descripcion : String
  fecha : Nat
  estado_registro : String

/-- Row of table `condicion_salud` (`models.CondicionSalud`); `nombre`
records exactly the decoded JSON value the code passes to the column. -/
structure CondicionSalud where
  id : Nat
  registro_mascota_id : Nat
  nombre : JVal
  fecha : Fecha
  estado_registro : String

/-- Row of table `preferencia_alimentaria` (`models.PreferenciaAlimentaria`). -/
structure PreferenciaAlimentaria where
  id : Nat
  registro_mascota_id : Nat
  nombre : JVal
  estado_registro : String
  descripcion : Option JVal

/-- Row of table `receta_medica` (`models.RecetaMedica`). -/
structure RecetaMedica where
  id : Nat
  registro_mascota_id : Nat
  pedido_especializado_id : Nat
  fecha : Nat
  estado_registro : String
  archivo : String

/-- Database state for `crear_pedido_especializado`: customer ids, pet
registrations as (id, owning customer id), and the rows each table has
persisted. -/
structure DBEsp where
  clientes : List Nat
  mascotas : List (Nat × Nat)
  pedidos : List Pedido
  pedidos_esp : List PedidoEspecializado
  recetas : List RecetaMedica
  alergias : List AlergiaMascota
  descripciones : List DescripcionAlergias
  condiciones : List CondicionSalud
  preferencias : List PreferenciaAlimentaria

/-- Form fields of `POST /cliente/pedido/especializado/{cliente_id}`.
JSON-list fields carry their decode outcome (see `parse_json_list`);
upload fields carry the client-supplied filename. -/
structure ComposerInput where
  registro_mascota_id : Nat
  frecuencia_cantidad : String
  objetivo_dieta : String
  indicaciones_adicionales : Option String
  consulta_nutricionista : Bool
  alergias_ids : Option (Option JVal)
  descripcion_alergias : Option String
  condiciones_salud : Option (Option JVal)
  preferencias_alimentarias : Option (Option JVal)
  receta_medica : Option String
  archivo_adicional : Option String

/-- The `resumen` block of the composer response. -/
structure Resumen where
  alergias_registradas : Nat
  condiciones_salud_registradas : Nat
  preferencias_alimentarias_registradas : Nat
  descripcion_alergias_incluida : Bool
  receta_medica_adjunta : Bool
  archivo_adicional_adjuntado : Bool
deriving DecidableEq

/-- Response of the composer. -/
structure RespEsp where
  pedido_id : Nat
  pedido_especializado_id : Nat
  registro_mascota_id : Nat
  consulta_nutricionista : Bool
  resumen : Resumen

/-- The `for alergia_id in alergias_list` loop: one `alergia_mascota` row
per entry (ids from the counter `k`), `int(alergia_id)` failing is an
uncaught exception. -/
def mkAlergias (mascota_id : Nat) :
    List JVal → Nat → Except Err (List AlergiaMascota × Nat)
  | [], k => .ok ([], k)
  | a :: rest, k =>
    match pyInt a with
    | none => .error .internalError
    | some v =>
      match mkAlergias mascota_id rest (k + 1) with
      | .error e => .error e
      | .ok (rs, k') =>
        .ok ({ id := k
               registro_mascota_id := mascota_id
               alergia_especie_id := v
               severidad := "moderada"
               estado_registro := "A" } :: rs, k')

/-- The (nombre, fecha/descripcion) pair the condition and preference loops
extract from one entry: `.get` on a dict, `str()` otherwise. -/
def nombreDeEntrada (entry : JVal) : Option JVal :=
  match entry with
  | .jobj fs => getPy fs "nombre"
  | v => some (.jstr (pyStr v))

/-- Body of one iteration of the `for cond in condiciones_list` loop:
`none` when the entry is skipped (`if not nombre: continue`). `isoOk`
tells whether `datetime.fromisoformat` accepts a string. -/
def procCond (mascota_id now : Nat) (isoOk : String → Bool) (entry : JVal)
    (k : Nat) : Option CondicionSalud :=
  let fechaTxt : Option JVal :=
    match entry with
    | .jobj fs => getPy fs "fecha"
    | _ => none
  match nombreDeEntrada entry with
  | none => none
  | some nv =>
    if jtruthy nv then
      let fecha : Fecha :=
        match fechaTxt with
        | some fv =>
          if jtruthy fv then
            match fv with
            | .jstr s => if isoOk s then .parsed s else .ahora now
            | _ => .ahora now
          else .ahora now
        | none => .ahora now
      some { id := k
             registro_mascota_id := mascota_id
             nombre := nv
             fecha := fecha
             estado_registro := "A" }
    else none

/-- The `for cond in condiciones_list` loop; a key is generated only for
rows actually added. -/
def mkCondiciones (mascota_id now : Nat) (isoOk : String → Bool) :
    List JVal → Nat → List CondicionSalud × Nat
  | [], k => ([], k)
  | c :: rest, k =>
    match procCond mascota_id now isoOk c k with
    | none => mkCondiciones mascota_id now isoOk rest k
    | some row =>
      let (rs, k') := mkCondiciones mascota_id now isoOk rest (k + 1)
      (row :: rs, k')

/-- Body of one iteration of the `for pref in preferencias_list` loop. -/
def procPref (mascota_id : Nat) (entry : JVal) (k : Nat) :
    Option PreferenciaAlimentaria :=
  let descOpt : Option JVal :=
    match entry with
    | .jobj fs => getPy fs "descripcion"
    | _ => none
  match nombreDeEntrada entry with
  | none => none
  | some nv =>
    if jtruthy nv then
      some { id := k
             registro_mascota_id := mascota_id
             nombre := nv
             estado_registro := "A"
             descripcion := descOpt }
    else none

/-- The `for pref in preferencias_list` loop. -/
def mkPreferencias (mascota_id : Nat) :
    List JVal → Nat → List PreferenciaAlimentaria × Nat
  | [], k => ([], k)
  | p :: rest, k =>
    match procPref mascota_id p k with
    | none => mkPreferencias mascota_id rest k
    | some row =>
      let (rs, k') := mkPreferencias mascota_id rest (k + 1)
      (row :: rs, k')

/-- Truthiness of an optional Python string (`if descripcion_alergias:`). -/
def optStrTruthy : Option String → Bool
  | none => false
  | some s => !s.isEmpty

/-- Key-counter value at which the allergy loop starts: the order and the
extension rows use two keys, and a prescription row (if attached) one
more. -/
def alergiasStart (inp : ComposerInput) (k : Nat) : Nat :=
  match inp.receta_medica with
  | none => k + 2
  | some _ => k + 3

/-- The `receta_medica` handling of the composer: if a prescription file
is attached, one `receta_medica` row (keyed `k + 2`) pointing at the
stored file path. -/
def recetaRows (inp : ComposerInput) (k now : Nat) : List RecetaMedica :=
  match inp.receta_medica with
  | none => []
  | some fn =>
    [{ id := k + 2
       registro_mascota_id := inp.registro_mascota_id
       pedido_especializado_id := k + 1
       fecha := now
       estado_registro := "A"
       archivo := "static/uploads/pedido_especializado/" ++ "receta_" ++
         toString (k + 1) ++ "_" ++ fn }]

/-- `POST /cliente/pedido/especializado/{cliente_id}`
(`crear_pedido_especializado`).  `k` is the next value of the key
generator (successive calls yield `k`, `k+1`, ... in the call order of
the source); `now` is `datetime.now()`; `isoOk` is the `datetime.fromisoformat`
acceptance oracle.  Checks and parses run in source order, all before any
row is built; the whole write set commits atomically at the end. -/
def crear_pedido_especializado (cliente_id : Nat) (inp : ComposerInput)
    (k now : Nat) (isoOk : String → Bool) (db : DBEsp) :
    Except Err (DBEsp × RespEsp) :=
  if cliente_id ∈ db.clientes then
    if (inp.registro_mascota_id, cliente_id) ∈ db.mascotas then
      if inp.frecuencia_cantidad.isEmpty || inp.objetivo_dieta.isEmpty then
        .error .faltanCamposDieta
      else
        match parse_json_list inp.alergias_ids with
        | .error e => .error e
        | .ok alergias_list =>
          match parse_json_list inp.condiciones_salud with
          | .error e => .error e
          | .ok condiciones_list =>
            match parse_json_list inp.preferencias_alimentarias with
            | .error e => .error e
            | .ok preferencias_list =>
              let pedido_id := k
              let pedido_esp_id := k + 1
              let pedido : Pedido :=
                { id := pedido_id
                  cliente_id := cliente_id
                  direccion_id := none
                  fecha := now
                  total := 0
                  estado := "pendiente"
                  incluye_plato := false }
              let dir := "static/uploads/pedido_especializado/"
              let archivo_path : Option String :=
                Option.map
                  (fun fn => dir ++ "extra_" ++ toString pedido_esp_id ++ "_" ++ fn)
                  inp.archivo_adicional
              let pedido_esp : PedidoEspecializado :=
                { id := pedido_esp_id
                  pedido_id := pedido_id
                  registro_mascota_id := inp.registro_mascota_id
                  frecuencia_cantidad := inp.frecuencia_cantidad
                  objetivo_dieta := inp.objetivo_dieta
                  indicaciones_adicionales := inp.indicaciones_adicionales
                  consulta_nutricionista := if inp.consulta_nutricionista then 1 else 0
                  estado_registro := "A"
                  archivo_adicional := archivo_path }
              match mkAlergias inp.registro_mascota_id alergias_list
                  (alergiasStart inp k) with
              | .error e => .error e
              | .ok (alergiaRows, k3) =>
                let descPar : List DescripcionAlergias × Nat :=
                  if optStrTruthy inp.descripcion_alergias then
                    ([{ id := k3
                        registro_mascota_id := inp.registro_mascota_id
                        descripcion := inp.descripcion_alergias.getD ""
                        fecha := now
                        estado_registro := "A" }], k3 + 1)
                  else ([], k3)
                let condPar := mkCondiciones inp.registro_mascota_id now isoOk
                    condiciones_list descPar.2
                let prefPar := mkPreferencias inp.registro_mascota_id
                    preferencias_list condPar.2
                .ok ({ db with
                       pedidos := db.pedidos ++ [pedido]
                       pedidos_esp := db.pedidos_esp ++ [pedido_esp]
                       recetas := db.recetas ++ recetaRows inp k now
                       alergias := db.alergias ++ alergiaRows
                       descripciones := db.descripciones ++ descPar.1
                       condiciones := db.condiciones ++ condPar.1
                       preferencias := db.preferencias ++ prefPar.1 },
                     { pedido_id := pedido_id
                       pedido_especializado_id := pedido_esp_id
                       registro_mascota_id := inp.registro_mascota_id
                       consulta_nutricionista := inp.consulta_nutricionista
                       resumen :=
                         { alergias_registradas := alergias_list.length
                           condiciones_salud_registradas := condiciones_list.length
                           preferencias_alimentarias_registradas := preferencias_list.length
                           descripcion_alergias_incluida := optStrTruthy inp.descripcion_alergias
                           receta_medica_adjunta := inp.receta_medica.isSome
                           archivo_adicional_adjuntado := inp.archivo_adicional.isSome } })
    else .error .mascotaNoEncontrada
  else .error .clienteNoEncontrado

/-- Modelled from the spec: the transition table of §4.2 as the claim
states it — five source states with their allowed targets; any other
state (including the terminal `entregado`/`cancelado`) has no allowed
targets.  Used only to compare the table of the code against the claim. -/
def claimAllowedTargets (s : String) : List String :=
  if s = "pendiente" then ["en_preparacion", "cancelado"]
  else if s = "en_preparacion" then ["asignado", "cancelado"]
  else if s = "asignado" then ["en_camino", "cancelado"]
  else if s = "en_camino" then ["entregado", "devuelto"]
  else if s = "devuelto" then ["asignado", "cancelado"]
  else []

/-- The dict of the code and the table of the claim admit the same transitions. -/
lemma mem_transiciones_iff (s t : String) :
    (∃ l, transiciones_validas s = some l ∧ t ∈ l) ↔ t ∈ claimAllowedTargets s := by
  unfold transiciones_validas claimAllowedTargets
  split_ifs <;> simp_all

/-- C1: the transition endpoint succeeds (persisting the new status and
changing nothing else) exactly when the requested status is an allowed
target of the current status per the spec table; when the current status
is a key of the table of the code but the target is not allowed it rejects with
an error carrying both statuses; when the current status is outside the
enumeration it rejects as an unknown state; and from the terminal
`entregado` / `cancelado` every request is rejected. -/
theorem transition_matches_spec_table (db : DB) (p : Pedido)
    (hp : db.pedido = some p) (nuevo : String) :
    ((actualizar_estado_pedido nuevo db =
        .ok { db with pedido := some { p with estado := nuevo } })
      ↔ nuevo ∈ claimAllowedTargets p.estado)
    ∧ (∀ permitidos, transiciones_validas p.estado = some permitidos →
        nuevo ∉ permitidos →
        actualizar_estado_pedido nuevo db =
          .error (.transicionInvalida p.estado nuevo))
    ∧ (transiciones_validas p.estado = none →
        actualizar_estado_pedido nuevo db =
          .error (.estadoDesconocido p.estado))
    ∧ (p.estado = "entregado" ∨ p.estado = "cancelado" →
        actualizar_estado_pedido nuevo db =
          .error (.transicionInvalida p.estado nuevo)) := by
  refine ⟨?_, ?_, ?_, ?_⟩
  · constructor
    · intro h
      rw [← mem_transiciones_iff]
      rcases htv : transiciones_validas p.estado with _ | l
      · simp [actualizar_estado_pedido, hp, htv] at h
      · by_cases hm : nuevo ∈ l
        · exact ⟨l, rfl, hm⟩
        · simp [actualizar_estado_pedido, hp, htv, hm] at h
    · intro h
      rw [← mem_transiciones_iff] at h
      obtain ⟨l, htv, hm⟩ := h
      simp [actualizar_estado_pedido, hp, htv, hm]
  · intro permitidos htv hnm
    simp [actualizar_estado_pedido, hp, htv, hnm]
  · intro htv
    simp [actualizar_estado_pedido, hp, htv]
  · intro hterm
    have htv : transiciones_validas p.estado = some [] := by
      rcases hterm with h | h <;> rw [h] <;> rfl
    simp [actualizar_estado_pedido, hp, htv]

/-- Concrete order used by several witnesses: a pending order with an
existing delivery-control row and two registered couriers. -/
def pedW : Pedido :=
  { id := 1, cliente_id := 1, direccion_id := some 4, fecha := 0, total := 30
    estado := "pendiente", incluye_plato := true }

def ctrW : ControlEntrega :=
  { id := 2, pedido_id := 1, fecha_entrega := 0, confirmacion_entrega := 0
    repartidor_id := 7 }

def dbW : DB := { pedido := some pedW, control := some ctrW, repartidores := [7, 8] }

theorem transition_matches_spec_table_witness :
    dbW.pedido = some pedW ∧
    (actualizar_estado_pedido "en_preparacion" dbW =
        .ok { dbW with pedido := some { pedW with estado := "en_preparacion" } }
      ↔ "en_preparacion" ∈ claimAllowedTargets pedW.estado) :=
  ⟨rfl, (transition_matches_spec_table dbW pedW rfl "en_preparacion").1⟩

/-- A cancelled order that still has a delivery-control row. -/
def pedCan : Pedido :=
  { id := 1, cliente_id := 1, direccion_id := none, fecha := 0, total := 0
    estado := "cancelado", incluye_plato := true }

def dbCan : DB := { pedido := some pedCan, control := some ctrW, repartidores := [7, 8] }

/-- C4 counterexample: on a cancelled order, the assignment endpoint
succeeds and overwrites the status with "asignado", and the
delivery-confirmation endpoint succeeds and overwrites it with
"entregado" — neither leaves it "cancelado". -/
theorem cancelled_not_preserved_counterexample :
    pedCan.estado = "cancelado"
    ∧ asignar_pedido_a_repartidor 8 99 5 dbCan =
        .ok { dbCan with
              pedido := some { pedCan with estado := "asignado" }
              control := some { ctrW with
                                repartidor_id := 8
                                fecha_entrega := 5
                                confirmacion_entrega := 0 } }
    ∧ marcar_pedido_recibido 5 dbCan =
        .ok ({ dbCan with
               pedido := some { pedCan with estado := "entregado" }
               control := some { ctrW with
                                 confirmacion_entrega := 1
                                 fecha_entrega := 5 } },
             "El pedido ha sido confirmado como recibido.")
    ∧ "asignado" ≠ "cancelado" ∧ "entregado" ≠ "cancelado" :=
  ⟨rfl, rfl, rfl, by decide, by decide⟩

/-- C4 amended: neither operation routes through the state-machine table.
On a cancelled order, assignment succeeds and sets the status to
"asignado" (its guard only skips assigned/in-transit/delivered), and
delivery confirmation (given a delivery-control row) succeeds and sets the
status to "entregado" with the confirmation flag raised. -/
theorem cancelled_order_mutated (db : DB) (p : Pedido) (c : ControlEntrega)
    (r f n : Nat) (hp : db.pedido = some p) (hest : p.estado = "cancelado")
    (hr : r ∈ db.repartidores) (hc : db.control = some c) :
    (∃ db', asignar_pedido_a_repartidor r f n db = .ok db' ∧
        db'.pedido = some { p with estado := "asignado" })
    ∧ (∃ x, marcar_pedido_recibido n db = .ok x ∧
        x.1.pedido = some { p with estado := "entregado" } ∧
        x.1.control = some { c with confirmacion_entrega := 1, fecha_entrega := n }) := by
  obtain ⟨po, co, rs⟩ := db
  change po = some p at hp
  change co = some c at hc
  subst hp
  subst hc
  change r ∈ rs at hr
  constructor
  · have hres : asignar_pedido_a_repartidor r f n ⟨some p, some c, rs⟩ =
        .ok ⟨some { p with estado := "asignado" },
             some { c with
                    repartidor_id := r
                    fecha_entrega := n
                    confirmacion_entrega := 0 }, rs⟩ := by
      simp only [asignar_pedido_a_repartidor]
      rw [if_pos hr]
      simp [hest]
    exact ⟨_, hres, rfl⟩
  · have hres : marcar_pedido_recibido n ⟨some p, some c, rs⟩ =
        .ok (⟨some { p with estado := "entregado" },
              some { c with confirmacion_entrega := 1, fecha_entrega := n }, rs⟩,
             "El pedido ha sido confirmado como recibido.") := by
      simp only [marcar_pedido_recibido]
      rw [if_neg (by simp [hest])]
    exact ⟨_, hres, rfl, rfl⟩

theorem cancelled_order_mutated_witness :
    dbCan.pedido = some pedCan ∧ pedCan.estado = "cancelado"
    ∧ (8 : Nat) ∈ dbCan.repartidores ∧ dbCan.control = some ctrW
    ∧ ((∃ db', asignar_pedido_a_repartidor 8 99 5 dbCan = .ok db' ∧
          db'.pedido = some { pedCan with estado := "asignado" })
       ∧ (∃ x, marcar_pedido_recibido 5 dbCan = .ok x ∧
          x.1.pedido = some { pedCan with estado := "entregado" } ∧
          x.1.control = some { ctrW with confirmacion_entrega := 1, fecha_entrega := 5 })) :=
  ⟨rfl, rfl, by decide, rfl,
    cancelled_order_mutated dbCan pedCan ctrW 8 99 5 rfl rfl (by decide) rfl⟩

/-- C6: reassigning a courier to an order already in transit leaves the
`pedido` row exactly as it was (in particular its status), and rewrites
the delivery-control row to the new courier with a refreshed timestamp and
the confirmation flag reset to 0; nothing else in the store changes. -/
theorem reassign_in_transit_frame (db : DB) (p : Pedido) (c : ControlEntrega)
    (r f n : Nat) (hp : db.pedido = some p) (hest : p.estado = "en_camino")
    (hc : db.control = some c) (hr : r ∈ db.repartidores) :
    asignar_pedido_a_repartidor r f n db =
      .ok { db with
            pedido := some p
            control := some { c with
                              repartidor_id := r
                              fecha_entrega := n
                              confirmacion_entrega := 0 } } := by
  obtain ⟨po, co, rs⟩ := db
  change po = some p at hp
  change co = some c at hc
  subst hp
  subst hc
  change r ∈ rs at hr
  simp only [asignar_pedido_a_repartidor]
  rw [if_pos hr]
  simp [hest]

/-- An order in transit, for the C6 witness. -/
def pedTrans : Pedido := { pedW with estado := "en_camino" }

def dbTrans : DB := { pedido := some pedTrans, control := some ctrW, repartidores := [7, 8] }

theorem reassign_in_transit_frame_witness :
    dbTrans.pedido = some pedTrans ∧ pedTrans.estado = "en_camino"
    ∧ dbTrans.control = some ctrW ∧ (8 : Nat) ∈ dbTrans.repartidores
    ∧ asignar_pedido_a_repartidor 8 99 5 dbTrans =
        .ok { dbTrans with
              pedido := some pedTrans
              control := some { ctrW with
                                repartidor_id := 8
                                fecha_entrega := 5
                                confirmacion_entrega := 0 } } :=
  ⟨rfl, rfl, rfl, by decide,
    reassign_in_transit_frame dbTrans pedTrans ctrW 8 99 5 rfl rfl rfl (by decide)⟩

/-- C7: both delivery-confirmation endpoints are idempotent — on an order
already "entregado" whose control row has the confirmation flag set, they
succeed, report the already-confirmed message, and leave the whole store
(status, flag and timestamp included) untouched. -/
theorem confirm_delivery_idempotent (db : DB) (p : Pedido) (c : ControlEntrega)
    (n : Nat) (hp : db.pedido = some p) (hc : db.control = some c)
    (hest : p.estado = "entregado") (hcf : c.confirmacion_entrega = 1) :
    marcar_pedido_recibido n db =
      .ok (db, "El pedido ya fue confirmado como recibido.")
    ∧ marcar_pedido_completado n db =
      .ok (db, "El pedido ya fue marcado como entregado anteriormente.") := by
  obtain ⟨po, co, rs⟩ := db
  change po = some p at hp
  change co = some c at hc
  subst hp
  subst hc
  constructor
  · simp only [marcar_pedido_recibido]
    rw [if_pos ⟨hest, hcf⟩]
  · simp only [marcar_pedido_completado]
    rw [if_pos ⟨hest, hcf⟩]

/-- A delivered and confirmed order, for the C7 witness. -/
def pedEnt : Pedido := { pedW with estado := "entregado" }

def ctrEnt : ControlEntrega := { ctrW with confirmacion_entrega := 1 }

def dbEnt : DB := { pedido := some pedEnt, control := some ctrEnt, repartidores := [7] }

theorem confirm_delivery_idempotent_witness :
    dbEnt.pedido = some pedEnt ∧ dbEnt.control = some ctrEnt
    ∧ pedEnt.estado = "entregado" ∧ ctrEnt.confirmacion_entrega = 1
    ∧ marcar_pedido_recibido 9 dbEnt =
        .ok (dbEnt, "El pedido ya fue confirmado como recibido.")
    ∧ marcar_pedido_completado 9 dbEnt =
        .ok (dbEnt, "El pedido ya fue marcado como entregado anteriormente.") :=
  ⟨rfl, rfl, rfl, rfl,
    (confirm_delivery_idempotent dbEnt pedEnt ctrEnt 9 rfl rfl rfl rfl).1,
    (confirm_delivery_idempotent dbEnt pedEnt ctrEnt 9 rfl rfl rfl rfl).2⟩

/-- C9: `mark_returned` 404s when no delivery-control row exists; given
the order and its control row, it rejects with the invalid-transition
error (400, carrying the status) exactly when the status is "entregado"
or "cancelado" — and then commits nothing, the store is unchanged —
and otherwise succeeds, setting the status to "devuelto", the
confirmation flag to 0 and the timestamp to now, touching nothing else. -/
theorem mark_returned_spec (db : DB) (n : Nat) :
    (db.control = none →
      marcar_pedido_devuelto n db = .error .noAsignadoDevuelto
      ∧ errStatus .noAsignadoDevuelto = 404)
    ∧ (∀ p c, db.pedido = some p → db.control = some c →
        (((p.estado = "entregado" ∨ p.estado = "cancelado") ↔
           marcar_pedido_devuelto n db = .error (.devolucionInvalida p.estado))
         ∧ errStatus (.devolucionInvalida p.estado) = 400
         ∧ ((p.estado = "entregado" ∨ p.estado = "cancelado") →
             runOp (.markReturned n) db = db)))
    ∧ (∀ p c, db.pedido = some p → db.control = some c →
        p.estado ≠ "entregado" → p.estado ≠ "cancelado" →
        marcar_pedido_devuelto n db =
          .ok { db with
                pedido := some { p with estado := "devuelto" }
                control := some { c with
                                  confirmacion_entrega := 0
                                  fecha_entrega := n } }) := by
  obtain ⟨po, co, rs⟩ := db
  refine ⟨?_, ?_, ?_⟩
  · intro hco
    change co = none at hco
    subst hco
    exact ⟨rfl, rfl⟩
  · intro p c hp hc
    change po = some p at hp
    change co = some c at hc
    subst hp
    subst hc
    by_cases hterm : p.estado = "entregado" ∨ p.estado = "cancelado"
    · have hm : p.estado ∈ ["entregado", "cancelado"] := by
        rcases hterm with h | h <;> simp [h]
      have herr : marcar_pedido_devuelto n (⟨some p, some c, rs⟩ : DB) =
          .error (.devolucionInvalida p.estado) := by
        simp only [marcar_pedido_devuelto]
        rw [if_pos hm]
      refine ⟨⟨fun _ => herr, fun _ => hterm⟩, rfl, fun _ => ?_⟩
      simp [runOp, applyOp, herr]
    · have hm : p.estado ∉ ["entregado", "cancelado"] := by
        simpa [not_or] using hterm
      have hok : marcar_pedido_devuelto n (⟨some p, some c, rs⟩ : DB) =
          .ok ⟨some { p with estado := "devuelto" },
               some { c with
                      confirmacion_entrega := 0
                      fecha_entrega := n }, rs⟩ := by
        simp only [marcar_pedido_devuelto]
        rw [if_neg hm]
      refine ⟨⟨fun h => absurd h hterm, fun h => ?_⟩, rfl, fun h => absurd h hterm⟩
      rw [hok] at h
      exact absurd h (by simp)
  · intro p c hp hc h1 h2
    change po = some p at hp
    change co = some c at hc
    subst hp
    subst hc
    have hm : p.estado ∉ ["entregado", "cancelado"] := by simp [h1, h2]
    simp only [marcar_pedido_devuelto]
    rw [if_neg hm]

/-- An assigned order with a control row, for the C9 witness. -/
def pedAsig : Pedido := { pedW with estado := "asignado" }

def dbAsig : DB := { pedido := some pedAsig, control := some ctrW, repartidores := [7] }

theorem mark_returned_spec_witness :
    dbAsig.pedido = some pedAsig ∧ dbAsig.control = some ctrW
    ∧ pedAsig.estado ≠ "entregado" ∧ pedAsig.estado ≠ "cancelado"
    ∧ marcar_pedido_devuelto 9 dbAsig =
        .ok { dbAsig with
              pedido := some { pedAsig with estado := "devuelto" }
              control := some { ctrW with
                                confirmacion_entrega := 0
                                fecha_entrega := 9 } } :=
  ⟨rfl, rfl, by decide, by decide,
    (mark_returned_spec dbAsig 9).2.2 pedAsig ctrW rfl rfl (by decide) (by decide)⟩

lemma deliveryInv_transition (nuevo : String) (db : DB)
    (h : deliveryInv db = true) :
    deliveryInv (runOp (.transition nuevo) db) = true := by
  obtain ⟨po, co, rs⟩ := db
  cases po with
  | none => simpa [runOp, applyOp, actualizar_estado_pedido] using h
  | some p =>
    cases co with
    | none =>
      simp only [runOp, applyOp, actualizar_estado_pedido]
      rcases htv : transiciones_validas p.estado with _ | l
      · simp [deliveryInv]
      · by_cases hm : nuevo ∈ l <;> simp [hm, deliveryInv]
    | some c =>
      by_cases hcf : c.confirmacion_entrega = 1
      · have hent : p.estado = "entregado" := by
          simpa [deliveryInv, hcf] using h
        have htv : transiciones_validas "entregado" = some [] := rfl
        simp [runOp, applyOp, actualizar_estado_pedido, hent, htv, deliveryInv,
              hcf]
      · rcases htv : transiciones_validas p.estado with _ | l
        · simpa [runOp, applyOp, actualizar_estado_pedido, htv] using h
        · by_cases hm : nuevo ∈ l <;>
            simp [runOp, applyOp, actualizar_estado_pedido, htv, hm, deliveryInv, hcf]

lemma deliveryInv_assign (r f n : Nat) (db : DB) (h : deliveryInv db = true) :
    deliveryInv (runOp (.assign r f n) db) = true := by
  obtain ⟨po, co, rs⟩ := db
  cases po with
  | none => simpa [runOp, applyOp, asignar_pedido_a_repartidor] using h
  | some p =>
    by_cases hr : r ∈ rs
    · cases co <;>
        by_cases hs : p.estado ∈ ["asignado", "en_camino", "entregado"] <;>
          simp [runOp, applyOp, asignar_pedido_a_repartidor, hr, hs, deliveryInv]
    · cases co <;>
        simpa [runOp, applyOp, asignar_pedido_a_repartidor, hr] using h

lemma deliveryInv_confirmCliente (n : Nat) (db : DB) (h : deliveryInv db = true) :
    deliveryInv (runOp (.confirmCliente n) db) = true := by
  obtain ⟨po, co, rs⟩ := db
  cases po with
  | none => simpa [runOp, applyOp, marcar_pedido_recibido] using h
  | some p =>
    cases co with
    | none => simpa [runOp, applyOp, marcar_pedido_recibido] using h
    | some c =>
      by_cases hb : p.estado = "entregado" ∧ c.confirmacion_entrega = 1
      · simpa [runOp, applyOp, marcar_pedido_recibido, hb] using h
      · simp [runOp, applyOp, marcar_pedido_recibido, hb, deliveryInv, Except.map]

lemma deliveryInv_confirmRepartidor (n : Nat) (db : DB) (h : deliveryInv db = true) :
    deliveryInv (runOp (.confirmRepartidor n) db) = true := by
  obtain ⟨po, co, rs⟩ := db
  cases co with
  | none => simpa [runOp, applyOp, marcar_pedido_completado] using h
  | some c =>
    cases po with
    | none => simpa [runOp, applyOp, marcar_pedido_completado] using h
    | some p =>
      by_cases hb : p.estado = "entregado" ∧ c.confirmacion_entrega = 1
      · simpa [runOp, applyOp, marcar_pedido_completado, hb] using h
      · simp [runOp, applyOp, marcar_pedido_completado, hb, deliveryInv, Except.map]

lemma deliveryInv_markReturned (n : Nat) (db : DB) (h : deliveryInv db = true) :
    deliveryInv (runOp (.markReturned n) db) = true := by
  obtain ⟨po, co, rs⟩ := db
  cases co with
  | none => simpa [runOp, applyOp, marcar_pedido_devuelto] using h
  | some c =>
    cases po with
    | none => simpa [runOp, applyOp, marcar_pedido_devuelto] using h
    | some p =>
      by_cases hm : p.estado ∈ ["entregado", "cancelado"]
      · simpa [runOp, applyOp, marcar_pedido_devuelto, hm] using h
      · simp [runOp, applyOp, marcar_pedido_devuelto, hm, deliveryInv]

lemma deliveryInv_runOp (op : Op) (db : DB) (h : deliveryInv db = true) :
    deliveryInv (runOp op db) = true := by
  cases op with
  | transition nuevo => exact deliveryInv_transition nuevo db h
  | assign r f n => exact deliveryInv_assign r f n db h
  | confirmCliente n => exact deliveryInv_confirmCliente n db h
  | confirmRepartidor n => exact deliveryInv_confirmRepartidor n db h
  | markReturned n => exact deliveryInv_markReturned n db h

/-- C5: the invariant "delivery confirmed implies status is entregado" is
preserved by every sequence of assignment, delivery-confirmation (either
endpoint), return and manual-transition calls: whenever it holds of the
store it still holds after running the sequence. -/
theorem delivery_confirmation_invariant (ops : List Op) (db : DB)
    (h : deliveryInv db = true) : deliveryInv (runOps ops db) = true := by
  induction ops generalizing db with
  | nil => simpa [runOps] using h
  | cons op rest ih =>
    have hstep := deliveryInv_runOp op db h
    simpa [runOps] using ih (runOp op db) hstep

/-- A sequence exercising every operation, for the C5 witness: the order
is prepared, assigned, sent out, confirmed delivered, then the two
rejected calls (a transition out of entregado and a return) leave the
store unchanged. -/
def opsW5 : List Op :=
  [.transition "en_preparacion", .assign 7 50 1, .transition "en_camino",
   .confirmCliente 2, .transition "cancelado", .markReturned 3,
   .confirmRepartidor 4]

theorem delivery_confirmation_invariant_witness :
    deliveryInv dbW = true ∧ deliveryInv (runOps opsW5 dbW) = true :=
  ⟨by decide, delivery_confirmation_invariant opsW5 dbW (by decide)⟩

/-- `mkDetalles` yields exactly one line-item row per requested item. -/
lemma mkDetalles_length (pedido_id : Nat) (catalogo : List (Nat × Int)) :
    ∀ (platos : List PlatoItem) (k : Nat) (dets : List DetallePedido),
      mkDetalles pedido_id catalogo platos k = some dets →
      dets.length = platos.length := by
  intro platos
  induction platos with
  | nil =>
    intro k dets h
    simp only [mkDetalles, Option.some.injEq] at h
    simp [← h]
  | cons it rest ih =>
    intro k dets h
    simp only [mkDetalles] at h
    rcases hpre : precioDe catalogo it.plato_id with _ | precio <;> rw [hpre] at h
    · simp at h
    · rcases hrec : mkDetalles pedido_id catalogo rest (k + 1) with _ | ds <;>
        rw [hrec] at h
      · simp at h
      · simp only [Option.map_some', Option.some.injEq] at h
        rw [← h]
        simp [ih (k + 1) ds hrec]

/-- Store for the C8 counterexample: customer 1 exists, dish 1 is priced,
but no delivery address exists at all. -/
def dbP0 : DBPedidos :=
  { clientes := [1], direcciones := [], platos := [(1, 10)]
    pedidos := [], detalles := [] }

/-- C8 counterexample: with an existing customer but a nonexistent
address (and otherwise valid items and total), `crear_pedido` rejects
with the address-validation error, whose status is 400 — not the
404 the claim asserts for a missing address. -/
theorem create_order_missing_address_counterexample :
    crear_pedido 1 (some 5) [{ plato_id := 1, cantidad := 1 }] (some 10) 100 0 dbP0 =
      .error .direccionInvalida
    ∧ errStatus .direccionInvalida = 400
    ∧ errStatus .direccionInvalida ≠ 404 :=
  ⟨rfl, rfl, by decide⟩

/-- C8 amended: `crear_pedido` 404s only for a missing customer; a
missing address id, empty item list, non-positive (or missing) total, and
an address that does not exist or does not belong to the customer all
reject with 400 validation errors — each detected before any order or
line-item row is written (the error result carries no state change) — and
on a fully valid request the order is persisted with status "pendiente"
together with one line-item row per requested item. -/
theorem create_order_validation (cliente_id : Nat) (direccion_id : Option Nat)
    (platos : List PlatoItem) (total : Option Int) (k now : Nat)
    (db : DBPedidos) :
    (cliente_id ∉ db.clientes →
      crear_pedido cliente_id direccion_id platos total k now db =
        .error .clienteNoEncontrado ∧ errStatus .clienteNoEncontrado = 404)
    ∧ (cliente_id ∈ db.clientes → direccion_id = none →
      crear_pedido cliente_id direccion_id platos total k now db =
        .error .faltaDireccion ∧ errStatus .faltaDireccion = 400)
    ∧ (cliente_id ∈ db.clientes → direccion_id.isSome = true → platos = [] →
      crear_pedido cliente_id direccion_id platos total k now db =
        .error .faltaPlatos ∧ errStatus .faltaPlatos = 400)
    ∧ (cliente_id ∈ db.clientes → direccion_id.isSome = true → platos ≠ [] →
      (total = none ∨ ∃ t, total = some t ∧ t ≤ 0) →
      crear_pedido cliente_id direccion_id platos total k now db =
        .error .totalInvalido ∧ errStatus .totalInvalido = 400)
    ∧ (∀ d t, cliente_id ∈ db.clientes → direccion_id = some d → platos ≠ [] →
      total = some t → 0 < t → (d, cliente_id) ∉ db.direcciones →
      crear_pedido cliente_id direccion_id platos total k now db =
        .error .direccionInvalida ∧ errStatus .direccionInvalida = 400)
    ∧ (∀ d t dets, cliente_id ∈ db.clientes → direccion_id = some d →
      platos ≠ [] → total = some t → 0 < t → (d, cliente_id) ∈ db.direcciones →
      mkDetalles k db.platos platos (k + 1) = some dets →
      crear_pedido cliente_id direccion_id platos total k now db =
        .ok { db with
              pedidos := db.pedidos ++
                [{ id := k, cliente_id := cliente_id, direccion_id := some d
                   fecha := now, total := t, estado := "pendiente"
                   incluye_plato := true }]
              detalles := db.detalles ++ dets }
        ∧ dets.length = platos.length) := by
  refine ⟨?_, ?_, ?_, ?_, ?_, ?_⟩
  · intro hcli
    exact ⟨by simp [crear_pedido, hcli], rfl⟩
  · intro hcli hdir
    subst hdir
    exact ⟨by simp [crear_pedido, hcli], rfl⟩
  · intro hcli hdir hpl
    subst hpl
    rcases direccion_id with _ | d
    · simp at hdir
    · exact ⟨by simp [crear_pedido, hcli], rfl⟩
  · intro hcli hdir hpl htot
    rcases direccion_id with _ | d
    · simp at hdir
    · rcases htot with h | ⟨t, ht, hle⟩
      · subst h
        refine ⟨?_, rfl⟩
        simp only [crear_pedido]
        rw [if_pos hcli, if_neg (by simpa using hpl)]
      · subst ht
        refine ⟨?_, rfl⟩
        simp only [crear_pedido]
        rw [if_pos hcli, if_neg (by simpa using hpl), if_pos hle]
  · intro d t hcli hdir hpl htot hpos hnotin
    subst hdir
    subst htot
    refine ⟨?_, rfl⟩
    simp only [crear_pedido]
    rw [if_pos hcli, if_neg (by simpa using hpl), if_neg (by omega),
        if_neg hnotin]
  · intro d t dets hcli hdir hpl htot hpos hin hmk
    subst hdir
    subst htot
    constructor
    · simp only [crear_pedido]
      rw [if_pos hcli, if_neg (by simpa using hpl), if_neg (by omega),
          if_pos hin, hmk]
    · exact mkDetalles_length k db.platos platos (k + 1) dets hmk

/-- Store with a valid customer/address/dish, for the C8 witness. -/
def dbP1 : DBPedidos :=
  { clientes := [1], direcciones := [(5, 1)], platos := [(1, 10)]
    pedidos := [], detalles := [] }

theorem create_order_validation_witness :
    (1 : Nat) ∈ dbP1.clientes ∧ ((5, 1) : Nat × Nat) ∈ dbP1.direcciones
    ∧ mkDetalles 100 dbP1.platos [{ plato_id := 1, cantidad := 2 }] 101 =
        some [{ id := 101, pedido_id := 100, plato_id := 1, cantidad := 2
                subtotal := 20 }]
    ∧ crear_pedido 1 (some 5) [{ plato_id := 1, cantidad := 2 }] (some 20) 100 0 dbP1 =
        .ok { dbP1 with
              pedidos := dbP1.pedidos ++
                [{ id := 100, cliente_id := 1, direccion_id := some 5
                   fecha := 0, total := 20, estado := "pendiente"
                   incluye_plato := true }]
              detalles := dbP1.detalles ++
                [{ id := 101, pedido_id := 100, plato_id := 1, cantidad := 2
                   subtotal := 20 }] } :=
  ⟨by decide, by decide, rfl,
    ((create_order_validation 1 (some 5) [{ plato_id := 1, cantidad := 2 }]
        (some 20) 100 0 dbP1).2.2.2.2.2 5 20
      [{ id := 101, pedido_id := 100, plato_id := 1, cantidad := 2, subtotal := 20 }]
      (by decide) rfl (by decide) rfl (by decide) (by decide) rfl).1⟩

/-- Does `pat` occur as a contiguous run inside `hay`? (Used to state that
an error message does not mention a field name.) -/
def containsSeq : List Char → List Char → Bool
  | [], pat => pat.isEmpty
  | hay@(_ :: rest), pat => pat.isPrefixOf hay || containsSeq rest pat

/-- The allergy loop adds one row per input entry — duplicates included. -/
lemma mkAlergias_length (m : Nat) :
    ∀ (xs : List JVal) (k : Nat) (rows : List AlergiaMascota) (k' : Nat),
      mkAlergias m xs k = .ok (rows, k') → rows.length = xs.length := by
  intro xs
  induction xs with
  | nil =>
    intro k rows k' h
    simp only [mkAlergias, Except.ok.injEq, Prod.mk.injEq] at h
    simp [← h.1]
  | cons a rest ih =>
    intro k rows k' h
    simp only [mkAlergias] at h
    rcases hint : pyInt a with _ | v <;> rw [hint] at h
    · simp at h
    · rcases hrec : mkAlergias m rest (k + 1) with e | pr <;> rw [hrec] at h
      · simp at h
      · simp only [Except.ok.injEq, Prod.mk.injEq] at h
        rw [← h.1]
        simp [ih (k + 1) pr.1 pr.2 (by rw [hrec])]

/-- Each allergy row carries the pet reference and the `int()` of its
input entry; equal input entries therefore yield equal (pet, allergy)
pairs. -/
lemma mkAlergias_pairs (m : Nat) :
    ∀ (xs : List JVal) (k : Nat) (rows : List AlergiaMascota) (k' : Nat),
      mkAlergias m xs k = .ok (rows, k') →
      rows.map (fun a => (a.registro_mascota_id, a.alergia_especie_id)) =
        xs.map (fun e => (m, (pyInt e).getD 0)) := by
  intro xs
  induction xs with
  | nil =>
    intro k rows k' h
    simp only [mkAlergias, Except.ok.injEq, Prod.mk.injEq] at h
    simp [← h.1]
  | cons a rest ih =>
    intro k rows k' h
    simp only [mkAlergias] at h
    rcases hint : pyInt a with _ | v <;> rw [hint] at h
    · simp at h
    · rcases hrec : mkAlergias m rest (k + 1) with e | pr <;> rw [hrec] at h
      · simp at h
      · simp only [Except.ok.injEq, Prod.mk.injEq] at h
        rw [← h.1]
        simp [hint, ih (k + 1) pr.1 pr.2 (by rw [hrec])]

/-- The test deciding whether a condition/preference entry is kept:
its extracted `nombre` exists and is truthy. -/
def tieneNombre (entry : JVal) : Bool :=
  match nombreDeEntrada entry with
  | none => false
  | some nv => jtruthy nv

lemma procCond_isSome (m now : Nat) (isoOk : String → Bool) (entry : JVal)
    (k : Nat) : (procCond m now isoOk entry k).isSome = tieneNombre entry := by
  simp only [procCond, tieneNombre]
  rcases nombreDeEntrada entry with _ | nv
  · rfl
  · by_cases ht : jtruthy nv = true <;> simp [ht]

lemma procPref_isSome (m : Nat) (entry : JVal) (k : Nat) :
    (procPref m entry k).isSome = tieneNombre entry := by
  simp only [procPref, tieneNombre]
  rcases nombreDeEntrada entry with _ | nv
  · rfl
  · by_cases ht : jtruthy nv = true <;> simp [ht]

/-- The conditions loop persists exactly the entries with a truthy name. -/
lemma mkCondiciones_length (m now : Nat) (isoOk : String → Bool) :
    ∀ (xs : List JVal) (k : Nat),
      (mkCondiciones m now isoOk xs k).1.length =
        (xs.filter tieneNombre).length := by
  intro xs
  induction xs with
  | nil => intro k; rfl
  | cons c rest ih =>
    intro k
    simp only [mkCondiciones]
    rcases hpc : procCond m now isoOk c k with _ | row
    · have hc : tieneNombre c = false := by
        rw [← procCond_isSome m now isoOk c k, hpc]; rfl
      simp [hc, ih k, List.filter]
    · have hc : tieneNombre c = true := by
        rw [← procCond_isSome m now isoOk c k, hpc]; rfl
      simp [hc, ih (k + 1), List.filter]

/-- The preferences loop persists exactly the entries with a truthy name. -/
lemma mkPreferencias_length (m : Nat) :
    ∀ (xs : List JVal) (k : Nat),
      (mkPreferencias m xs k).1.length = (xs.filter tieneNombre).length := by
  intro xs
  induction xs with
  | nil => intro k; rfl
  | cons c rest ih =>
    intro k
    simp only [mkPreferencias]
    rcases hpc : procPref m c k with _ | row
    · have hc : tieneNombre c = false := by
        rw [← procPref_isSome m c k, hpc]; rfl
      simp [hc, ih k, List.filter]
    · have hc : tieneNombre c = true := by
        rw [← procPref_isSome m c k, hpc]; rfl
      simp [hc, ih (k + 1), List.filter]

/-- Success path of the composer: with an owning customer, an owned pet,
non-empty mandatory diet fields, all three list fields decoding, and
every allergy id convertible, the call succeeds; the new store appends
exactly the allergy rows built by the loop, the kept condition rows and
the kept preference rows; and the summary reports the full decoded list
lengths. -/
lemma composer_success (cliente_id : Nat) (inp : ComposerInput) (k now : Nat)
    (isoOk : String → Bool) (db : DBEsp)
    (hcli : cliente_id ∈ db.clientes)
    (hmas : (inp.registro_mascota_id, cliente_id) ∈ db.mascotas)
    (hfr : inp.frecuencia_cantidad.isEmpty = false)
    (hob : inp.objetivo_dieta.isEmpty = false)
    (as cs ps : List JVal)
    (ha : parse_json_list inp.alergias_ids = .ok as)
    (hc : parse_json_list inp.condiciones_salud = .ok cs)
    (hp : parse_json_list inp.preferencias_alimentarias = .ok ps)
    (rows : List AlergiaMascota) (k3 : Nat)
    (hmk : mkAlergias inp.registro_mascota_id as (alergiasStart inp k) =
      .ok (rows, k3)) :
    ∃ db' resp,
      crear_pedido_especializado cliente_id inp k now isoOk db = .ok (db', resp)
      ∧ db'.alergias = db.alergias ++ rows
      ∧ (∃ k4, db'.condiciones = db.condiciones ++
          (mkCondiciones inp.registro_mascota_id now isoOk cs k4).1)
      ∧ (∃ k5, db'.preferencias = db.preferencias ++
          (mkPreferencias inp.registro_mascota_id ps k5).1)
      ∧ resp.resumen.alergias_registradas = as.length
      ∧ resp.resumen.condiciones_salud_registradas = cs.length
      ∧ resp.resumen.preferencias_alimentarias_registradas = ps.length := by
  have hout : ∀ (out : DBEsp × RespEsp),
      crear_pedido_especializado cliente_id inp k now isoOk db = .ok out →
      out.1.alergias = db.alergias ++ rows
      ∧ (∃ k4, out.1.condiciones = db.condiciones ++
          (mkCondiciones inp.registro_mascota_id now isoOk cs k4).1)
      ∧ (∃ k5, out.1.preferencias = db.preferencias ++
          (mkPreferencias inp.registro_mascota_id ps k5).1)
      ∧ out.2.resumen.alergias_registradas = as.length
      ∧ out.2.resumen.condiciones_salud_registradas = cs.length
      ∧ out.2.resumen.preferencias_alimentarias_registradas = ps.length := by
    intro out h
    simp only [crear_pedido_especializado] at h
    rw [if_pos hcli, if_pos hmas, if_neg (by simp [hfr, hob])] at h
    simp only [ha, hc, hp, hmk, Except.ok.injEq] at h
    rw [← h]
    exact ⟨rfl, ⟨_, rfl⟩, ⟨_, rfl⟩, rfl, rfl, rfl⟩
  have hex : ∃ out, crear_pedido_especializado cliente_id inp k now isoOk db =
      .ok out := by
    simp only [crear_pedido_especializado]
    rw [if_pos hcli, if_pos hmas, if_neg (by simp [hfr, hob])]
    simp only [ha, hc, hp, hmk]
    exact ⟨_, rfl⟩
  obtain ⟨out, hok⟩ := hex
  obtain ⟨h1, h2, h3, h4, h5, h6⟩ := hout out hok
  exact ⟨out.1, out.2, hok, h1, h2, h3, h4, h5, h6⟩

/-- `parse_json_list` only ever fails with the one generic JSON error. -/
lemma parse_json_list_error (v : Option (Option JVal)) (e : Err)
    (h : parse_json_list v = .error e) : e = .formatoJsonInvalido := by
  rcases v with _ | o
  · simp [parse_json_list] at h
  · rcases o with _ | j
    · simp only [parse_json_list, Except.error.injEq] at h
      exact h.symm
    · rcases j <;> simp [parse_json_list] at h

/-- Empty store with customer 1 owning pet registration 10. -/
def dbEsp0 : DBEsp :=
  { clientes := [1], mascotas := [(10, 1)], pedidos := [], pedidos_esp := []
    recetas := [], alergias := [], descripciones := [], condiciones := []
    preferencias := [] }

/-- A specialized-order request whose allergy list holds the same id
twice. -/
def inpC2 : ComposerInput :=
  { registro_mascota_id := 10
    frecuencia_cantidad := "2 veces/semana"
    objetivo_dieta := "bajar peso"
    indicaciones_adicionales := none
    consulta_nutricionista := false
    alergias_ids := some (some (.jarr [.jnum 3, .jnum 3]))
    descripcion_alergias := none
    condiciones_salud := none
    preferencias_alimentarias := none
    receta_medica := none
    archivo_adicional := none }

/-- C2 counterexample: with the duplicate pair [3, 3] in the allergy list,
the composer persists TWO allergy rows — both for the same pet and the
same catalog entry — and the summary reports 2 registered, with no skipped
duplicate anywhere; the claimed "exactly one record, one skipped
duplicate" is false of the code. -/
theorem duplicate_allergies_counterexample :
    ((crear_pedido_especializado 1 inpC2 100 0 (fun _ => false) dbEsp0).toOption.map
        (fun out => (out.1.alergias.length,
          out.1.alergias.map (fun a => (a.registro_mascota_id, a.alergia_especie_id)),
          out.2.resumen.alergias_registradas)))
      = some (2, [(10, 3), (10, 3)], 2) := rfl

/-- C2 amended: the composer performs no duplicate detection at all — each
entry of the decoded allergy list yields its own persisted row (identical
entries yield identical (pet, catalog-entry) pairs), and the field
`alergias_registradas` is the full decoded list length; nothing in the
response reports skipped duplicates. -/
theorem duplicate_allergies_persisted (cliente_id : Nat) (inp : ComposerInput)
    (k now : Nat) (isoOk : String → Bool) (db : DBEsp)
    (hcli : cliente_id ∈ db.clientes)
    (hmas : (inp.registro_mascota_id, cliente_id) ∈ db.mascotas)
    (hfr : inp.frecuencia_cantidad.isEmpty = false)
    (hob : inp.objetivo_dieta.isEmpty = false)
    (as cs ps : List JVal)
    (ha : parse_json_list inp.alergias_ids = .ok as)
    (hc : parse_json_list inp.condiciones_salud = .ok cs)
    (hp : parse_json_list inp.preferencias_alimentarias = .ok ps)
    (rows : List AlergiaMascota) (k3 : Nat)
    (hmk : mkAlergias inp.registro_mascota_id as (alergiasStart inp k) =
      .ok (rows, k3)) :
    ∃ db' resp,
      crear_pedido_especializado cliente_id inp k now isoOk db = .ok (db', resp)
      ∧ db'.alergias = db.alergias ++ rows
      ∧ rows.length = as.length
      ∧ rows.map (fun a => (a.registro_mascota_id, a.alergia_especie_id)) =
          as.map (fun e => (inp.registro_mascota_id, (pyInt e).getD 0))
      ∧ resp.resumen.alergias_registradas = as.length := by
  obtain ⟨db', resp, hok, hal, _, _, hsum, _, _⟩ :=
    composer_success cliente_id inp k now isoOk db hcli hmas hfr hob
      as cs ps ha hc hp rows k3 hmk
  exact ⟨db', resp, hok, hal,
    mkAlergias_length inp.registro_mascota_id as (alergiasStart inp k) rows k3 hmk,
    mkAlergias_pairs inp.registro_mascota_id as (alergiasStart inp k) rows k3 hmk,
    hsum⟩

/-- The two identical allergy rows the duplicate request produces. -/
def rowsC2 : List AlergiaMascota :=
  [{ id := 102, registro_mascota_id := 10, alergia_especie_id := 3
     severidad := "moderada", estado_registro := "A" },
   { id := 103, registro_mascota_id := 10, alergia_especie_id := 3
     severidad := "moderada", estado_registro := "A" }]

theorem duplicate_allergies_persisted_witness :
    ∃ db' resp,
      crear_pedido_especializado 1 inpC2 100 0 (fun _ => false) dbEsp0 =
        .ok (db', resp)
      ∧ db'.alergias = dbEsp0.alergias ++ rowsC2
      ∧ rowsC2.length = [JVal.jnum 3, JVal.jnum 3].length
      ∧ rowsC2.map (fun a => (a.registro_mascota_id, a.alergia_especie_id)) =
          [JVal.jnum 3, JVal.jnum 3].map
            (fun e => (inpC2.registro_mascota_id, (pyInt e).getD 0))
      ∧ resp.resumen.alergias_registradas = [JVal.jnum 3, JVal.jnum 3].length :=
  duplicate_allergies_persisted 1 inpC2 100 0 (fun _ => false) dbEsp0
    (by decide) (by decide) rfl rfl [.jnum 3, .jnum 3] [] [] rfl rfl rfl
    rowsC2 104 rfl

/-- The duplicate request with the allergy list removed and a malformed
(non-decodable) conditions field instead. -/
def inpC3 : ComposerInput :=
  { inpC2 with alergias_ids := none, condiciones_salud := some none }

/-- C3 counterexample: with malformed JSON in the conditions field the
composer does fail with the 400 error before anything is persisted, but
the error detail is the fixed generic message, which names neither
"condiciones" nor "conditions" — the claim that the message names the
offending field is false of the code. -/
theorem malformed_conditions_counterexample :
    crear_pedido_especializado 1 inpC3 100 0 (fun _ => false) dbEsp0 =
      .error .formatoJsonInvalido
    ∧ errDetail .formatoJsonInvalido =
        "Formato JSON inválido en uno de los campos de lista."
    ∧ containsSeq (errDetail .formatoJsonInvalido).toList "condiciones".toList = false
    ∧ containsSeq (errDetail .formatoJsonInvalido).toList "conditions".toList = false :=
  ⟨rfl, rfl, by decide, by decide⟩

/-- C3 amended: a malformed conditions field makes the composer fail with
the 400 JSON-format error before any row is built (the checks and parses
all precede the first write, and the error result carries no state); the
error message is the single generic one shared by every malformed list
field, so it does not name the conditions field. -/
theorem malformed_conditions_rejected (cliente_id : Nat) (inp : ComposerInput)
    (k now : Nat) (isoOk : String → Bool) (db : DBEsp)
    (hcli : cliente_id ∈ db.clientes)
    (hmas : (inp.registro_mascota_id, cliente_id) ∈ db.mascotas)
    (hfr : inp.frecuencia_cantidad.isEmpty = false)
    (hob : inp.objetivo_dieta.isEmpty = false)
    (hmal : inp.condiciones_salud = some none) :
    crear_pedido_especializado cliente_id inp k now isoOk db =
      .error .formatoJsonInvalido
    ∧ errStatus .formatoJsonInvalido = 400
    ∧ containsSeq (errDetail .formatoJsonInvalido).toList "condiciones".toList = false
    ∧ containsSeq (errDetail .formatoJsonInvalido).toList "conditions".toList = false := by
  refine ⟨?_, rfl, by decide, by decide⟩
  simp only [crear_pedido_especializado]
  rw [if_pos hcli, if_pos hmas, if_neg (by simp [hfr, hob])]
  rcases hpa : parse_json_list inp.alergias_ids with e | as
  · simp [parse_json_list_error inp.alergias_ids e hpa]
  · simp [hmal, parse_json_list]

theorem malformed_conditions_rejected_witness :
    (1 : Nat) ∈ dbEsp0.clientes
    ∧ ((10, 1) : Nat × Nat) ∈ dbEsp0.mascotas
    ∧ inpC3.condiciones_salud = some none
    ∧ crear_pedido_especializado 1 inpC3 100 0 (fun _ => false) dbEsp0 =
        .error .formatoJsonInvalido :=
  ⟨by decide, by decide, rfl,
    (malformed_conditions_rejected 1 inpC3 100 0 (fun _ => false) dbEsp0
      (by decide) (by decide) rfl rfl rfl).1⟩

/-- Conditions list for the C10 witness: one entry without a name, one
named. -/
def csC10 : List JVal :=
  [.jobj [], .jobj [("nombre", .jstr "artritis")]]

/-- Preferences list for the C10 witness: one empty-string entry (falsy
name), one named. -/
def psC10 : List JVal := [.jstr "", .jstr "pollo"]

def inpC10 : ComposerInput :=
  { inpC2 with
    alergias_ids := none
    condiciones_salud := some (some (.jarr csC10))
    preferencias_alimentarias := some (some (.jarr psC10)) }

/-- C10: on a successful specialized-order creation, every decoded
condition/preference entry without a truthy name is skipped — only the
entries with one become rows — while the summary fields
`condiciones_salud_registradas` and `preferencias_alimentarias_registradas`
are the full decoded list lengths, counting the skipped entries as if
registered. -/
theorem nameless_entries_skipped_but_counted (cliente_id : Nat)
    (inp : ComposerInput) (k now : Nat) (isoOk : String → Bool) (db : DBEsp)
    (hcli : cliente_id ∈ db.clientes)
    (hmas : (inp.registro_mascota_id, cliente_id) ∈ db.mascotas)
    (hfr : inp.frecuencia_cantidad.isEmpty = false)
    (hob : inp.objetivo_dieta.isEmpty = false)
    (as cs ps : List JVal)
    (ha : parse_json_list inp.alergias_ids = .ok as)
    (hc : parse_json_list inp.condiciones_salud = .ok cs)
    (hp : parse_json_list inp.preferencias_alimentarias = .ok ps)
    (rows : List AlergiaMascota) (k3 : Nat)
    (hmk : mkAlergias inp.registro_mascota_id as (alergiasStart inp k) =
      .ok (rows, k3)) :
    ∃ db' resp,
      crear_pedido_especializado cliente_id inp k now isoOk db = .ok (db', resp)
      ∧ resp.resumen.condiciones_salud_registradas = cs.length
      ∧ resp.resumen.preferencias_alimentarias_registradas = ps.length
      ∧ db'.condiciones.length =
          db.condiciones.length + (cs.filter tieneNombre).length
      ∧ db'.preferencias.length =
          db.preferencias.length + (ps.filter tieneNombre).length := by
  obtain ⟨db', resp, hok, _, ⟨k4, hcond⟩, ⟨k5, hpref⟩, _, h5, h6⟩ :=
    composer_success cliente_id inp k now isoOk db hcli hmas hfr hob
      as cs ps ha hc hp rows k3 hmk
  refine ⟨db', resp, hok, h5, h6, ?_, ?_⟩
  · rw [hcond, List.length_append,
        mkCondiciones_length inp.registro_mascota_id now isoOk cs k4]
  · rw [hpref, List.length_append,
        mkPreferencias_length inp.registro_mascota_id ps k5]

theorem nameless_entries_skipped_but_counted_witness :
    ∃ db' resp,
      crear_pedido_especializado 1 inpC10 100 0 (fun _ => false) dbEsp0 =
        .ok (db', resp)
      ∧ resp.resumen.condiciones_salud_registradas = 2
      ∧ resp.resumen.preferencias_alimentarias_registradas = 2
      ∧ db'.condiciones.length = 1
      ∧ db'.preferencias.length = 1 := by
  obtain ⟨db', resp, hok, h1, h2, h3, h4⟩ :=
    nameless_entries_skipped_but_counted 1 inpC10 100 0 (fun _ => false) dbEsp0
      (by decide) (by decide) rfl rfl [] csC10 psC10 rfl rfl rfl [] 102 rfl
  exact ⟨db', resp, hok, h1.trans rfl, h2.trans rfl, h3.trans rfl, h4.trans rfl⟩
